import Mathlib

/-!
Verification of the quiz-generation job orchestration subsystem
(supabase/functions/generate-quiz: index.ts, worker.ts, SupabaseSaver.ts).

The TypeScript source is shallowly embedded: each graph node function is a
Lean function from the agent state (plus the outcomes of its external calls,
passed as explicit oracle arguments) to the partial-state delta it returns;
a node that can throw returns an Except value.  The checkpoint store is a
list of rows keyed by (thread_id, checkpoint_ns, checkpoint_id).  The HTTP
poll handler is a fold over the requested thread ids.
-/

/-- Decidable equality for Except values, so that concrete runs of the
embedded functions can be checked by decide. -/
instance {ε α : Type _} [DecidableEq ε] [DecidableEq α] : DecidableEq (Except ε α) :=
  fun x y =>
    match x, y with
    | .ok a, .ok b =>
      if h : a = b then isTrue (by rw [h]) else isFalse (by simp [h])
    | .error a, .error b =>
      if h : a = b then isTrue (by rw [h]) else isFalse (by simp [h])
    | .ok _, .error _ => isFalse (by simp)
    | .error _, .ok _ => isFalse (by simp)

namespace GenerateQuiz

/-- One quiz question, mirroring interface QuizQuestion in index.ts. -/
structure QuizQuestion where
  question : String
  answer : String
  english : String
deriving DecidableEq, Repr

/-- The graph state, mirroring interface AgentState in index.ts (current
revision).  Fields that are optional in TypeScript are Option here. -/
structure AgentState where
  user_token : String
  user_id : String
  thread_id : String
  word_list_ids : List Int
  language : String
  quiz_type : String
  article_source : String
  article_type : String
  article_url : Option String := none
  article_title : Option String := none
  article_text : Option String := none
  quiz_id : Option Int := none
  target_words : List String
  generated_quiz : Option (List QuizQuestion) := none
  error : Option String := none
deriving DecidableEq, Repr

/-- JavaScript truthiness of a possibly-absent string: absent and the empty
string are falsy. -/
def truthyStr : Option String → Bool
  | none => false
  | some s => decide (s ≠ "")

/-- The delta returned by one node function, mirroring the
object literals of type partial AgentState returned by the nodes.  A field
that is none is absent from the returned object. -/
structure Delta where
  target_words : Option (List String) := none
  article_url : Option String := none
  article_title : Option String := none
  article_text : Option String := none
  quiz_id : Option Int := none
  generated_quiz : Option (List QuizQuestion) := none
  error : Option String := none
deriving DecidableEq, Repr

/-- The empty delta, the object literal with no fields. -/
def emptyDelta : Delta := {}

/-- Merging a delta into the state, as the LastValue channels of the graph
do: a field present in the delta replaces the state field. -/
def applyDelta (s : AgentState) (d : Delta) : AgentState :=
  { s with
    target_words := d.target_words.getD s.target_words
    article_url := match d.article_url with | some v => some v | none => s.article_url
    article_title := match d.article_title with | some v => some v | none => s.article_title
    article_text := match d.article_text with | some v => some v | none => s.article_text
    quiz_id := match d.quiz_id with | some v => some v | none => s.quiz_id
    generated_quiz := match d.generated_quiz with | some v => some v | none => s.generated_quiz
    error := match d.error with | some v => some v | none => s.error }

end GenerateQuiz

namespace SupabaseSaver

/-- One row of the checkpoints table as written by SupabaseSaver.put. -/
structure CheckpointRow where
  thread_id : String
  checkpoint_ns : String
  checkpoint_id : String
  parent_checkpoint_id : Option String
  rowType : String
  checkpoint : String
  metadata : String
deriving DecidableEq, Repr

/-- The conflict key of the upsert: onConflict thread_id,checkpoint_ns,checkpoint_id. -/
def rowKey (r : CheckpointRow) : String × String × String :=
  (r.thread_id, r.checkpoint_ns, r.checkpoint_id)

/-- Postgres upsert with onConflict on the key: replace the row with the
matching key if one exists, otherwise insert. -/
def upsertRow : List CheckpointRow → CheckpointRow → List CheckpointRow
  | [], row => [row]
  | r :: rs, row =>
    if rowKey r = rowKey row then row :: rs else r :: upsertRow rs row

/-- The configurable identity returned by put. -/
structure PutConfig where
  thread_id : String
  checkpoint_ns : String
  checkpoint_id : String
deriving DecidableEq, Repr

/-- SupabaseSaver.put: builds the row from the config and checkpoint and
upserts it keyed on (thread_id, checkpoint_ns, checkpoint_id).  The content
of an existing row under the same key is never compared against the new
content; the only failure path is a database error, which is external to
this model, so put always succeeds and returns the new identity. -/
def put (store : List CheckpointRow) (thread_id checkpoint_ns : String)
    (parent_checkpoint_id : Option String) (checkpoint_id checkpoint metadata : String) :
    List CheckpointRow × PutConfig :=
  let row : CheckpointRow :=
    { thread_id := thread_id
      checkpoint_ns := checkpoint_ns
      checkpoint_id := checkpoint_id
      parent_checkpoint_id := parent_checkpoint_id
      rowType := "checkpoint"
      checkpoint := checkpoint
      metadata := metadata }
  (upsertRow store row, { thread_id := thread_id, checkpoint_ns := checkpoint_ns,
                          checkpoint_id := checkpoint_id })

/-- Look up the row stored under a key. -/
def lookupRow (store : List CheckpointRow) (k : String × String × String) :
    Option CheckpointRow :=
  store.find? (fun r => rowKey r = k)

end SupabaseSaver

namespace GenerateQuiz

/-- Insertion-order deduplication, as the JavaScript spread of a Set over a
list keeps the first occurrence of each element. -/
def jsSetDedup (l : List String) : List String :=
  l.foldl (fun acc x => if x ∈ acc then acc else acc ++ [x]) []

/-- fetchWordsNode.  The outcome of the word_lists select is passed as the
oracle argument db: on success, the words column of each returned row. -/
def fetchWordsNode (state : AgentState)
    (db : Except String (List (List String))) : Delta :=
  if truthyStr state.error then {}
  else if state.word_list_ids = [] then
    if state.language.toLower = "dutch" then
      { target_words := some ["nieuws", "vandaag", "belangrijk"] }
    else
      { target_words := some ["general", "vocabulary", "context"] }
  else
    match db with
    | .error e => { error := some ("DB Error: " ++ e) }
    | .ok rows =>
      let allWords := rows.flatten
      let uniqueWords := jsSetDedup allWords
      { target_words := some (if uniqueWords.length > 0 then uniqueWords else ["general"]) }

/-- pickArticleNode.  The oracle fetched gives the article links extracted
from the fetched front page (or the message of a thrown fetch error), and
chosen stands for the random index. -/
def pickArticleNode (state : AgentState)
    (fetched : Except String (List String)) (chosen : Nat) : Delta :=
  if truthyStr state.error then {}
  else if ¬ (state.language.toLower = "dutch" ∧ state.article_source = "nos.nl") then
    { error := some "Random article picker only supported for Dutch (NOS.nl). Please provide a URL for other languages." }
  else
    match fetched with
    | .error e => { error := some e }
    | .ok links =>
      if links = [] then { error := some "No articles found" }
      else
        let selectedPath := links.getD (chosen % links.length) ""
        { article_url := some ("https://nos.nl" ++ selectedPath) }

/-- scrapeContentNode.  The oracle fetched gives the (title, textContent)
pair produced by the fetch-and-extract section, or the message of a thrown
error. -/
def scrapeContentNode (state : AgentState)
    (fetched : Except String (String × String)) : Delta :=
  if truthyStr state.error then {}
  else if ¬ truthyStr state.article_url then
    { error := some "No URL to scrape" }
  else
    match fetched with
    | .error e => { error := some ("Scraping error: " ++ e) }
    | .ok (title, textContent) =>
      if textContent.length < 100 then
        { error := some "Could not extract sufficient text from the URL." }
      else
        { article_text := some (textContent.take 8000), article_title := some title }

/-- triggerWorkerNode.  Oracles: insertQuiz is the outcome of inserting the
placeholder quiz row (on success, its id); workerCall the outcome of
callWorkerAsync; updStatus the outcome of the status-update issued when the
worker call threw. -/
def triggerWorkerNode (state : AgentState)
    (insertQuiz : Except String Int) (workerCall : Except String Unit)
    (updStatus : Except String Unit) : Delta :=
  if truthyStr state.error ∨ ¬ truthyStr state.article_text then {}
  else
    match insertQuiz with
    | .error e => { error := some e }
    | .ok quizId =>
      match workerCall with
      | .ok _ => { quiz_id := some quizId }
      | .error e =>
        match updStatus with
        | .error e2 => { error := some ("Failed saving worker error " ++ e ++ ": " ++ e2) }
        | .ok _ => { error := some ("Failed to call worker: " ++ e) }

/-- checkStatusNode.  The oracle db is the outcome of selecting
(content, status) for the quiz row.  When the select returns an error the
returned data is null, and the node dereferences data.status in a log line
before checking the error, so that path throws a TypeError instead of
returning an error delta. -/
def checkStatusNode (state : AgentState)
    (db : Except String (Option (List QuizQuestion) × String)) :
    Except String Delta :=
  if truthyStr state.error ∨ ¬ truthyStr state.article_text then .ok {}
  else
    match db with
    | .error _ => .error "TypeError: cannot read status of null data"
    | .ok (content, status) =>
      if content.isSome then .ok { generated_quiz := content }
      else if status = "error" then .ok { error := some "Worker reported an error" }
      else .ok {}

/-- The value a resume call hands back to the interrupt inside waitNode:
either the sentinel string poll, or a payload object carrying the fields the
node inspects. -/
inductive ResumeValue where
  | poll
  | payload (quiz_id : Option Int) (user_id : Option String)
      (exercises : List QuizQuestion)
deriving DecidableEq, Repr

/-- waitNode (current revision).  The interrupt call suspends on first
execution; this function models the resumed execution, in which interrupt
evaluates to the resume value.  A payload whose quiz_id or user_id differs
from the current state throws; a matching payload is written to
generated_quiz.  Note there is no check of state.error. -/
def waitNode (state : AgentState) (resume : ResumeValue) : Except String Delta :=
  match resume with
  | .poll => .ok {}
  | .payload quizId userId exercises =>
    if quizId ≠ state.quiz_id ∨ userId ≠ some state.user_id then
      .error "Unexpected content from worker."
    else
      .ok { generated_quiz := some exercises }

/-- waitNode as in the earlier revision of index.ts: the resume value is
discarded and the node always returns the empty delta. -/
def waitNodeV2 (_state : AgentState) (_resume : ResumeValue) : Delta := {}

/-- finalizeQuizNode: updates the quiz row and word-list links (external
effects) and returns the empty delta; short-circuits on error. -/
def finalizeQuizNode (state : AgentState) : Delta :=
  if truthyStr state.error then {} else {}

end GenerateQuiz

namespace GenerateQuiz

/-- The snapshot the handler reads with app.getState for a polled thread:
either the graph has finished (next is empty), or it is interrupted at
wait_node (tasks non-empty), or neither. -/
inductive Snapshot where
  | finished (values : AgentState)
  | interrupted (values : AgentState)
  | unknownState
deriving DecidableEq, Repr

/-- The result of one resume of an interrupted thread: the graph either ran
to the end or suspended again at wait_node. -/
inductive ResumeOutcome where
  | finished (s : AgentState)
  | suspended (s : AgentState)
deriving DecidableEq, Repr

/-- One resume of a thread interrupted at wait_node, following the compiled
graph of the current revision: wait_node consumes the resume value; the
conditional edge from wait_node routes to finalize_quiz when error or
generated_quiz is set (ending the graph) and otherwise to check_status,
whose unconditional edge leads back into wait_node, which interrupts again.
A throw inside a node propagates out of the invoke as an Except error. -/
def resumeThread (s : AgentState) (r : ResumeValue)
    (db : Except String (Option (List QuizQuestion) × String)) :
    Except String ResumeOutcome :=
  match waitNode s r with
  | .error e => .error e
  | .ok d =>
    let s1 := applyDelta s d
    if truthyStr s1.error ∨ s1.generated_quiz.isSome then
      .ok (.finished (applyDelta s1 (finalizeQuizNode s1)))
    else
      match checkStatusNode s1 db with
      | .error e => .error e
      | .ok d2 => .ok (.suspended (applyDelta s1 d2))

/-- Operations the handler performs against the checkpoint store on behalf
of one thread id: reading its state, or invoking the graph (which reads and
writes checkpoints for that thread). -/
inductive StoreOp where
  | getState (tid : String)
  | invoke (tid : String)
deriving DecidableEq, Repr

/-- JavaScript String.startsWith. -/
def jsStartsWith (s p : String) : Bool :=
  p.data.isPrefixOf s.data

/-- Processing of one polled thread id in the handler loop of the current
revision, together with the store operations performed for that id.  The
ownership check precedes every store access; a finished thread is reported
completed without resuming; an interrupted thread is resumed (awaited in
the loop) and its status is then derived from the re-read state: error if
state.error is set, otherwise completed when the graph ended, otherwise
processing.  An exception anywhere is an Except error, which aborts the
whole request. -/
def perThread (uid tid : String) (snap : Snapshot) (r : ResumeValue)
    (db : Except String (Option (List QuizQuestion) × String)) :
    Except String (String × List StoreOp) :=
  if ¬ jsStartsWith tid uid then .ok ("forbidden", [])
  else
    match snap with
    | .finished _ => .ok ("completed", [.getState tid])
    | .interrupted s =>
      match resumeThread s r db with
      | .error e => .error e
      | .ok out =>
        let status :=
          match out with
          | .finished s2 => if truthyStr s2.error then "error" else "completed"
          | .suspended s2 => if truthyStr s2.error then "error" else "processing"
        .ok (status, [.getState tid, .invoke tid, .getState tid])
    | .unknownState => .ok ("unknown", [.getState tid])

/-- One batch poll request: for each requested thread id, its snapshot, the
resume value the client sent for it, and the database oracle its
check_status would observe. -/
abbrev PollRequest := List (String × Snapshot × ResumeValue ×
  Except String (Option (List QuizQuestion) × String))

/-- The poll handler over a batch: thread ids are processed in request
order; the response carries one (thread id, status) entry per id.  The
first exception thrown inside the loop escapes to the outer catch, turning
the whole response into a single 500 error with no per-job entries. -/
def pollBatch (uid : String) : PollRequest → Except String (List (String × String))
  | [] => .ok []
  | (tid, snap, r, db) :: rest =>
    match perThread uid tid snap r db with
    | .error e => .error e
    | .ok (status, _) =>
      match pollBatch uid rest with
      | .error e => .error e
      | .ok entries => .ok ((tid, status) :: entries)

/-- The thread id minted for a new job by the handler:
the owning user id, a hyphen, and the current time. -/
def newThreadId (uid : String) (now : Nat) : String :=
  uid ++ "-" ++ toString now

end GenerateQuiz

namespace GenerateQuiz

/-- The body of a new-quiz request before validation, mirroring the fields
NewQuizSchema reads.  meta_bytes is the serialized byte size of the meta
value when one is supplied. -/
structure NewQuizBody where
  word_list_ids : Option (List Int) := none
  language : Option String := none
  quiz_type : Option String := none
  article_source : Option String := none
  article_type : Option String := none
  article_url : Option String := none
  article_title : Option String := none
  article_text : Option String := none
  meta_bytes : Option Nat := none
deriving DecidableEq, Repr

/-- A validated request with the schema defaults applied. -/
structure NewQuizRequest where
  word_list_ids : List Int
  language : String
  quiz_type : String
  article_source : String
  article_type : String
  article_url : Option String
  article_title : Option String
  article_text : Option String
  meta_bytes : Option Nat
deriving DecidableEq, Repr

/-- NewQuizSchema.parse: the superRefine on meta rejects a serialized meta
larger than 512 bytes, and the refine on the object rejects a body in which
article_text is truthy but article_title is not; otherwise the defaults are
applied.  A failed parse throws a ZodError. -/
def parseNewQuiz (b : NewQuizBody) : Except String NewQuizRequest :=
  if (b.meta_bytes.getD 0) > 512 then
    .error "Meta JSON too large"
  else if truthyStr b.article_text ∧ ¬ truthyStr b.article_title then
    .error "A title is required if you provide content text."
  else
    .ok { word_list_ids := b.word_list_ids.getD []
          language := b.language.getD "Dutch"
          quiz_type := b.quiz_type.getD "masked-word"
          article_source := b.article_source.getD "nos.nl"
          article_type := b.article_type.getD "Article"
          article_url := b.article_url
          article_title := b.article_title
          article_text := b.article_text
          meta_bytes := b.meta_bytes }

/-- The new_quiz branch of the handler: parse the body, and only on success
mint a thread id and invoke the graph on the initial state.  A parse
failure throws out of the loop before any thread id is minted or any
checkpoint written. -/
def newQuizBranch (uid : String) (now : Nat) (b : NewQuizBody) :
    Except String String :=
  match parseNewQuiz b with
  | .error e => .error e
  | .ok _ => .ok (newThreadId uid now)

/-- The checkpoint-store operations performed by the new_quiz branch: none
when validation fails, and the graph invocation for the minted thread id
when it succeeds. -/
def newQuizOps (uid : String) (now : Nat) (b : NewQuizBody) : List StoreOp :=
  match parseNewQuiz b with
  | .error _ => []
  | .ok _ => [.invoke (newThreadId uid now)]

end GenerateQuiz

namespace QuizWorker

/-- The transport configuration read from the environment by worker.ts. -/
structure WorkerConfig where
  workerUrl : Option String := none
  workerLambda : Option String := none
deriving DecidableEq, Repr

/-- The behaviour of the external worker call as seen by the race: it
settles at some time (in milliseconds), either fulfilling or rejecting with
an error message. -/
inductive WorkerOutcome where
  | resolves (at_ms : Nat)
  | rejects (at_ms : Nat) (msg : String)
deriving DecidableEq, Repr

/-- The time at which the worker promise settles. -/
def WorkerOutcome.settleTime : WorkerOutcome → Nat
  | .resolves t => t
  | .rejects t _ => t

/-- The timer raced against the worker call (setTimeout 300). -/
def workerTimeoutMs : Nat := 300

/-- What callWorkerAsync returns to its caller: detached records whether the
worker call was moved to the background by EdgeRuntime.waitUntil after the
timer won the race. -/
structure DispatchResult where
  detached : Bool
deriving DecidableEq, Repr

/-- callWorkerAsync: with no transport configured it throws; otherwise it
races the worker promise against the 300 ms timer.  If the worker settles
first, a rejection is rethrown to the caller and a fulfillment returns
without detaching; if the timer fires first, the call is detached to the
background and the function returns success regardless of how the worker
later settles. -/
def callWorkerAsync (cfg : WorkerConfig) (outcome : WorkerOutcome) :
    Except String DispatchResult :=
  if ¬ GenerateQuiz.truthyStr cfg.workerUrl ∧ ¬ GenerateQuiz.truthyStr cfg.workerLambda then
    .error "No worker defined."
  else
    match outcome with
    | .resolves t =>
      if t < workerTimeoutMs then .ok { detached := false }
      else .ok { detached := true }
    | .rejects t msg =>
      if t < workerTimeoutMs then .error msg
      else .ok { detached := true }

end QuizWorker

namespace GenerateQuiz

/-- A sample quiz question used as a concrete input. -/
def sampleQuestion : QuizQuestion :=
  { question := "Het is een vraag.", answer := "vraag", english := "It is a question." }

/-- A sample article text long enough to pass the 100-character check. -/
def sampleText : String := String.mk (List.replicate 120 'a')

/-- A concrete in-progress job state: article text present, worker
triggered, no result yet. -/
def processingState : AgentState :=
  { user_token := "tok", user_id := "u1", thread_id := "u1-5",
    word_list_ids := [], language := "Dutch", quiz_type := "masked-word",
    article_source := "nos.nl", article_type := "Article",
    article_text := some sampleText, quiz_id := some 7,
    target_words := ["nieuws"] }

/-- The same job after a step recorded an error. -/
def erroredState : AgentState := { processingState with error := some "boom" }

end GenerateQuiz

namespace SupabaseSaver

/-- Upserting the same row twice is the same as upserting it once. -/
theorem upsertRow_key_idem (store : List CheckpointRow) (row : CheckpointRow) :
    upsertRow (upsertRow store row) row = upsertRow store row := by
  induction store with
  | nil => simp [upsertRow]
  | cons r rs ih =>
    by_cases h : rowKey r = rowKey row
    · simp [upsertRow, h]
    · simp [upsertRow, h, ih]

/-- After an upsert, the key maps to the upserted row. -/
theorem lookupRow_upsertRow (store : List CheckpointRow) (row : CheckpointRow) :
    lookupRow (upsertRow store row) (rowKey row) = some row := by
  induction store with
  | nil => simp [upsertRow, lookupRow]
  | cons r rs ih =>
    by_cases h : rowKey r = rowKey row
    · simp [upsertRow, h, lookupRow]
    · simp [upsertRow, h, lookupRow] at ih ⊢
      exact ih

end SupabaseSaver

namespace SupabaseSaver

/-- C1 counterexample: putting checkpoint id ck1 with content stateA and
then putting the same key (t1, empty namespace, ck1) with the different
content stateB is not rejected or flagged: the second put returns the new
identity normally and the store now silently holds stateB under that key,
refuting the claim that a conflicting put is rejected or flagged as a
storage-consistency error. -/
theorem put_conflict_counterexample :
    (put (put [] "t1" "" none "ck1" "stateA" "meta").1
        "t1" "" none "ck1" "stateB" "meta").2
      = { thread_id := "t1", checkpoint_ns := "", checkpoint_id := "ck1" } ∧
    lookupRow (put (put [] "t1" "" none "ck1" "stateA" "meta").1
        "t1" "" none "ck1" "stateB" "meta").1 ("t1", "", "ck1")
      = some { thread_id := "t1", checkpoint_ns := "", checkpoint_id := "ck1",
               parent_checkpoint_id := none, rowType := "checkpoint",
               checkpoint := "stateB", metadata := "meta" } :=
  ⟨rfl, by decide⟩

/-- C1 amended: put is an idempotent last-writer-wins upsert keyed by
(thread_id, checkpoint_ns, checkpoint_id): re-submitting the same
checkpoint_id with identical content leaves the store and the returned
identity exactly as after a single put, while a put with the same key and
different content is silently applied, replacing the stored content with
the new one, with no conflict detection. -/
theorem put_idempotent_last_writer (store : List CheckpointRow)
    (tid ns : String) (parent : Option String) (cid cp md cp2 md2 : String) :
    put (put store tid ns parent cid cp md).1 tid ns parent cid cp md
      = put store tid ns parent cid cp md ∧
    lookupRow (put store tid ns parent cid cp2 md2).1 (tid, ns, cid)
      = some { thread_id := tid, checkpoint_ns := ns, checkpoint_id := cid,
               parent_checkpoint_id := parent, rowType := "checkpoint",
               checkpoint := cp2, metadata := md2 } := by
  constructor
  · show (upsertRow (upsertRow store _) _, _) = (upsertRow store _, _)
    rw [upsertRow_key_idem]
  · exact lookupRow_upsertRow store _

end SupabaseSaver

namespace GenerateQuiz

/-- Merging the empty delta leaves the state unchanged. -/
theorem applyDelta_empty (s : AgentState) : applyDelta s {} = s := rfl

/-- C2 counterexample: wait_node does not check state.error first.  Resumed
on a state whose error is already set, with a payload whose quiz_id and
user_id match the state, it returns a delta writing generated_quiz, which
is not the empty delta — refuting the claim that every step function of
the graph (wait_node included) returns an empty delta once error is set. -/
theorem wait_node_short_circuit_counterexample :
    truthyStr erroredState.error = true ∧
    waitNode erroredState (.payload (some 7) (some "u1") [sampleQuestion])
      = .ok { generated_quiz := some [sampleQuestion] } ∧
    ({ generated_quiz := some [sampleQuestion] } : Delta) ≠ emptyDelta :=
  ⟨rfl, by decide, by decide⟩

/-- C2 amended: every step function except wait_node checks state.error
first and returns the empty delta when it is set; wait_node suspends and
consumes its resume value without checking error, returning the empty delta
only for the poll sentinel, so along poll resumes an errored job ends with
its state unchanged (the same error and no other field changed), while a
matching payload resume can still write generated_quiz on an errored
state. -/
theorem short_circuit_on_error (s : AgentState) (h : truthyStr s.error = true)
    (db : Except String (List (List String))) (fetched : Except String (List String))
    (chosen : Nat) (scraped : Except String (String × String))
    (ins : Except String Int) (wk upd : Except String Unit)
    (dbq : Except String (Option (List QuizQuestion) × String)) :
    fetchWordsNode s db = emptyDelta ∧
    pickArticleNode s fetched chosen = emptyDelta ∧
    scrapeContentNode s scraped = emptyDelta ∧
    triggerWorkerNode s ins wk upd = emptyDelta ∧
    checkStatusNode s dbq = .ok emptyDelta ∧
    finalizeQuizNode s = emptyDelta ∧
    waitNode s .poll = .ok emptyDelta ∧
    resumeThread s .poll dbq = .ok (.finished s) := by
  refine ⟨?_, ?_, ?_, ?_, ?_, ?_, rfl, ?_⟩
  · simp [fetchWordsNode, h, emptyDelta]
  · simp [pickArticleNode, h, emptyDelta]
  · simp [scrapeContentNode, h, emptyDelta]
  · simp [triggerWorkerNode, h, emptyDelta]
  · simp [checkStatusNode, h, emptyDelta]
  · simp [finalizeQuizNode, emptyDelta]
  · simp [resumeThread, waitNode, applyDelta_empty, h, finalizeQuizNode]

/-- Witness for the amended C2 theorem at a concrete errored state. -/
theorem short_circuit_on_error_witness :
    fetchWordsNode erroredState (.ok [["woord"]]) = emptyDelta ∧
    pickArticleNode erroredState (.ok ["/artikel/1"]) 0 = emptyDelta ∧
    scrapeContentNode erroredState (.ok ("titel", sampleText)) = emptyDelta ∧
    triggerWorkerNode erroredState (.ok 7) (.ok ()) (.ok ()) = emptyDelta ∧
    checkStatusNode erroredState (.ok (none, "generating")) = .ok emptyDelta ∧
    finalizeQuizNode erroredState = emptyDelta ∧
    waitNode erroredState .poll = .ok emptyDelta ∧
    resumeThread erroredState .poll (.ok (none, "generating"))
      = .ok (.finished erroredState) :=
  short_circuit_on_error erroredState (by decide) (.ok [["woord"]])
    (.ok ["/artikel/1"]) 0 (.ok ("titel", sampleText)) (.ok 7) (.ok ()) (.ok ())
    (.ok (none, "generating"))

end GenerateQuiz

namespace GenerateQuiz

/-- C3 counterexample: resuming a suspended job with a payload whose
declared quiz_id does not match the job state makes wait_node throw, and
the exception propagates past the executor: the whole poll request becomes
a single 500 error response, so the caller observes the failure as a
non-200 exception, not as a status read from the checkpoint. -/
theorem step_throw_counterexample :
    pollBatch "u1" [("u1-5", .interrupted processingState,
        .payload (some 9) (some "u1") [sampleQuestion], .ok (none, "generating"))]
      = .error "Unexpected content from worker." := by decide

/-- C3 amended: a failure that a step reports by returning an error delta
is captured into state.error and surfaces to the poller as the status
string error derived from the checkpointed state; but a failure thrown by
a step — the payload-identity mismatch in wait_node, or the quizzes select
erroring inside check_status (whose null data is dereferenced before the
error check) — propagates past the executor and turns that poll call into
a 500 error response with no per-job entries. -/
theorem step_error_capture (uid tid : String) (s : AgentState)
    (hown : jsStartsWith tid uid = true) (herr : s.error = none)
    (htext : truthyStr s.article_text = true) (hq : s.generated_quiz = none) :
    perThread uid tid (.interrupted s) .poll (.ok (none, "error"))
      = .ok ("error", [.getState tid, .invoke tid, .getState tid]) ∧
    (∀ (rest : PollRequest) (dbq : Except String (Option (List QuizQuestion) × String)),
      pollBatch uid ((tid, .interrupted s, .payload none none [], dbq) :: rest)
        = .error "Unexpected content from worker.") ∧
    (∀ e : String, perThread uid tid (.interrupted s) .poll (.error e)
      = .error "TypeError: cannot read status of null data") := by
  have herr' : truthyStr s.error = false := by rw [herr]; rfl
  have hmsg : truthyStr (some "Worker reported an error") = true := rfl
  refine ⟨?_, ?_, ?_⟩
  · simp [perThread, hown, resumeThread, waitNode, applyDelta_empty, herr', hq,
      checkStatusNode, htext, applyDelta, hmsg]
  · intro rest dbq
    simp [pollBatch, perThread, hown, resumeThread, waitNode]
  · intro e
    simp [perThread, hown, resumeThread, waitNode, applyDelta_empty, herr', hq,
      checkStatusNode, htext]

/-- Witness for the amended C3 theorem at a concrete in-progress job. -/
theorem step_error_capture_witness :
    perThread "u1" "u1-5" (.interrupted processingState) .poll (.ok (none, "error"))
      = .ok ("error", [.getState "u1-5", .invoke "u1-5", .getState "u1-5"]) ∧
    pollBatch "u1" [("u1-5", .interrupted processingState, .payload none none [],
        .ok (none, "generating"))]
      = .error "Unexpected content from worker." ∧
    perThread "u1" "u1-5" (.interrupted processingState) .poll (.error "db down")
      = .error "TypeError: cannot read status of null data" := by
  obtain ⟨h1, h2, h3⟩ :=
    step_error_capture "u1" "u1-5" processingState (by decide) rfl (by decide) rfl
  exact ⟨h1, h2 [] (.ok (none, "generating")), h3 "db down"⟩

end GenerateQuiz

namespace GenerateQuiz

/-- C4 counterexample: a batch of two job ids in which the first job's
resume throws (mismatching payload) and the second is a healthy completed
job.  The whole poll call returns a single error response: there are no
per-job entries at all, so the response does not contain one entry per
submitted id and the first job's failure blanks out the second job's
entry, refuting the failure-isolation claim. -/
theorem batch_poll_counterexample :
    pollBatch "u1"
      [("u1-5", .interrupted processingState,
          .payload (some 9) (some "u1") [sampleQuestion], .ok (none, "generating")),
       ("u1-6", .finished processingState, .poll, .ok (none, "generating"))]
      = .error "Unexpected content from worker." := by decide

/-- C4 amended: the per-job resumes are awaited one at a time inside the
request loop; when every requested id is processed without a thrown
exception, the aggregate response contains exactly one entry per submitted
id, in request order, but the first thrown resume aborts the whole batch
into a single error response. -/
theorem batch_poll_entries (uid : String) (req : PollRequest)
    (h : ∀ e ∈ req, ∃ v, perThread uid e.1 e.2.1 e.2.2.1 e.2.2.2 = .ok v) :
    ∃ entries, pollBatch uid req = .ok entries ∧
      entries.map Prod.fst = req.map (fun e => e.1) ∧
      entries.length = req.length := by
  induction req with
  | nil => exact ⟨[], rfl, rfl, rfl⟩
  | cons e rest ih =>
    obtain ⟨tid, snap, r, dbq⟩ := e
    obtain ⟨⟨st, ops⟩, hv⟩ := h _ (List.mem_cons_self _ _)
    obtain ⟨entries, hpb, hmap, hlen⟩ := ih (fun x hx => h x (List.mem_cons_of_mem _ hx))
    refine ⟨(tid, st) :: entries, ?_, ?_, ?_⟩
    · simp only [pollBatch]
      rw [hv, hpb]
    · simp [hmap]
    · simp [hlen]

/-- Witness for the amended C4 theorem: a two-job batch (one completed, one
still processing) yields exactly two entries, in order. -/
theorem batch_poll_entries_witness :
    ∃ entries, pollBatch "u1"
        [("u1-5", .finished processingState, .poll, .ok (none, "generating")),
         ("u1-6", .interrupted processingState, .poll, .ok (none, "generating"))]
      = .ok entries ∧
      entries.map Prod.fst = ["u1-5", "u1-6"] ∧ entries.length = 2 := by
  have h := batch_poll_entries "u1"
    [("u1-5", .finished processingState, .poll, .ok (none, "generating")),
     ("u1-6", .interrupted processingState, .poll, .ok (none, "generating"))]
    (by intro e he
        simp only [List.mem_cons, List.mem_singleton] at he
        rcases he with rfl | rfl | h0
        · exact ⟨("completed", [.getState "u1-5"]), by decide⟩
        · exact ⟨("processing", [.getState "u1-6", .invoke "u1-6", .getState "u1-6"]), by decide⟩
        · cases h0)
  simpa using h

end GenerateQuiz

namespace GenerateQuiz

/-- C5: if a polled thread id does not carry the caller's user id as a
prefix, the handler answers forbidden for that id before touching the
checkpoint store: no getState read, no resume, no mutation is performed
for that id, whatever snapshot, resume value or database state the job
has. -/
theorem forbidden_isolation (uid tid : String) (snap : Snapshot) (r : ResumeValue)
    (dbq : Except String (Option (List QuizQuestion) × String))
    (h : jsStartsWith tid uid = false) :
    perThread uid tid snap r dbq = .ok ("forbidden", []) := by
  simp [perThread, h]

/-- Witness for C5: a thread id owned by another user polls as forbidden
with an empty store-operation trace. -/
theorem forbidden_isolation_witness :
    perThread "u1" "u2-1700000000000" (.interrupted processingState) .poll
      (.ok (none, "generating")) = .ok ("forbidden", []) :=
  forbidden_isolation "u1" "u2-1700000000000" (.interrupted processingState) .poll
    (.ok (none, "generating")) (by decide)

/-- C6 counterexample: the terminal branch of the handler reports
completed without looking at the state, so a job whose terminal checkpoint
is FAILED (error set) polls as completed, not as the error status the
claim requires for a FAILED terminal job. -/
theorem terminal_status_counterexample :
    erroredState.error = some "boom" ∧
    perThread "u1" "u1-5" (.finished erroredState) .poll (.ok (none, "generating"))
      = .ok ("completed", [.getState "u1-5"]) ∧
    ("completed" : String) ≠ "error" :=
  ⟨rfl, by decide, by decide⟩

/-- C6 amended: polling a job whose latest checkpoint is terminal performs
no resume and no step function runs (the store trace is a single getState
read), and every such poll returns the same entry — but that entry is
always status completed, with no state values, even when the terminal
state carries an error. -/
theorem terminal_poll_idempotent (uid tid : String) (s : AgentState)
    (r : ResumeValue) (dbq : Except String (Option (List QuizQuestion) × String))
    (h : jsStartsWith tid uid = true) :
    perThread uid tid (.finished s) r dbq = .ok ("completed", [.getState tid]) := by
  simp [perThread, h]

/-- Witness for the amended C6 theorem: polling a terminal FAILED job. -/
theorem terminal_poll_idempotent_witness :
    perThread "u1" "u1-5" (.finished erroredState) .poll (.ok (none, "generating"))
      = .ok ("completed", [.getState "u1-5"]) :=
  terminal_poll_idempotent "u1" "u1-5" erroredState .poll (.ok (none, "generating"))
    (by decide)

/-- C7: the suspend step of the current revision validates a resumed
payload against the job state before accepting it: a payload whose
declared quiz_id and user_id do not both match the current state makes the
resume call fail with a thrown error, and only a matching payload's
exercises are merged into the job state as the generated result (after
which the graph routes to finalize and ends). -/
theorem payload_resume_validation (s : AgentState) (qid : Option Int)
    (uidp : Option String) (ex : List QuizQuestion)
    (dbq : Except String (Option (List QuizQuestion) × String)) :
    (¬ (qid = s.quiz_id ∧ uidp = some s.user_id) →
      resumeThread s (.payload qid uidp ex) dbq
        = .error "Unexpected content from worker.") ∧
    ((qid = s.quiz_id ∧ uidp = some s.user_id) →
      resumeThread s (.payload qid uidp ex) dbq
        = .ok (.finished (applyDelta s { generated_quiz := some ex }))) := by
  constructor
  · intro hmis
    have : qid ≠ s.quiz_id ∨ uidp ≠ some s.user_id := by tauto
    simp [resumeThread, waitNode, this]
  · rintro ⟨hq, hu⟩
    simp [resumeThread, waitNode, hq, hu, applyDelta, finalizeQuizNode]

/-- Witness for C7: a mismatching payload is rejected, a matching payload
is accepted into the state. -/
theorem payload_resume_validation_witness :
    resumeThread processingState (.payload (some 9) (some "u1") [sampleQuestion])
        (.ok (none, "generating"))
      = .error "Unexpected content from worker." ∧
    resumeThread processingState (.payload (some 7) (some "u1") [sampleQuestion])
        (.ok (none, "generating"))
      = .ok (.finished (applyDelta processingState
          { generated_quiz := some [sampleQuestion] })) :=
  ⟨(payload_resume_validation processingState (some 9) (some "u1") [sampleQuestion]
      (.ok (none, "generating"))).1 (by decide),
   (payload_resume_validation processingState (some 7) (some "u1") [sampleQuestion]
      (.ok (none, "generating"))).2 (by decide)⟩

end GenerateQuiz

namespace QuizWorker

/-- C8: callWorkerAsync races the worker call against the 300 ms timer: a
worker rejection that settles before the timer is rethrown synchronously
to the caller; when the timer fires first the dispatch returns success
with the call detached to the background, whatever the worker call later
does; and with no worker transport configured at all the function throws
No worker defined. -/
theorem dispatch_race (cfg : WorkerConfig)
    (hcfg : GenerateQuiz.truthyStr cfg.workerUrl = true ∨
            GenerateQuiz.truthyStr cfg.workerLambda = true) :
    (∀ (t : Nat) (msg : String), t < workerTimeoutMs →
      callWorkerAsync cfg (.rejects t msg) = .error msg) ∧
    (∀ o : WorkerOutcome, workerTimeoutMs ≤ o.settleTime →
      callWorkerAsync cfg o = .ok { detached := true }) ∧
    (∀ (cfg2 : WorkerConfig) (o : WorkerOutcome),
      GenerateQuiz.truthyStr cfg2.workerUrl = false →
      GenerateQuiz.truthyStr cfg2.workerLambda = false →
      callWorkerAsync cfg2 o = .error "No worker defined.") := by
  refine ⟨?_, ?_, ?_⟩
  · intro t msg ht
    rcases hcfg with h | h <;> simp [callWorkerAsync, h, ht]
  · intro o ho
    cases o with
    | resolves t =>
      simp only [WorkerOutcome.settleTime] at ho
      rcases hcfg with h | h <;> simp [callWorkerAsync, h, Nat.not_lt.mpr ho]
    | rejects t msg =>
      simp only [WorkerOutcome.settleTime] at ho
      rcases hcfg with h | h <;> simp [callWorkerAsync, h, Nat.not_lt.mpr ho]
  · intro cfg2 o h1 h2
    simp [callWorkerAsync, h1, h2]

/-- Witness for C8: an early rejection surfaces synchronously, a slow call
is detached and reported as success, and a missing transport throws. -/
theorem dispatch_race_witness :
    callWorkerAsync { workerUrl := some "https://w" } (.rejects 10 "bad endpoint")
      = .error "bad endpoint" ∧
    callWorkerAsync { workerUrl := some "https://w" } (.resolves 400)
      = .ok { detached := true } ∧
    callWorkerAsync {} (.resolves 10) = .error "No worker defined." := by
  obtain ⟨h1, h2, h3⟩ := dispatch_race { workerUrl := some "https://w" } (by exact Or.inl rfl)
  exact ⟨h1 10 "bad endpoint" (by decide), h2 (.resolves 400) (by decide),
         h3 {} (.resolves 10) rfl rfl⟩

end QuizWorker

namespace GenerateQuiz

/-- C9: a new-quiz body that supplies article text but no truthy article
title (and whose meta is within the size limit) fails schema validation
with the title-required error, and the new_quiz branch throws that error
before minting a job id or touching the checkpoint store: its store
operation trace is empty, so no job or checkpoint is created. -/
theorem validation_no_partial_state (uid : String) (now : Nat) (b : NewQuizBody)
    (htext : truthyStr b.article_text = true)
    (htitle : truthyStr b.article_title = false)
    (hmeta : b.meta_bytes.getD 0 ≤ 512) :
    parseNewQuiz b = .error "A title is required if you provide content text." ∧
    newQuizBranch uid now b = .error "A title is required if you provide content text." ∧
    newQuizOps uid now b = [] := by
  have hp : parseNewQuiz b = .error "A title is required if you provide content text." := by
    rw [parseNewQuiz, if_neg (by omega), if_pos ⟨htext, by simp [htitle]⟩]
  exact ⟨hp, by rw [newQuizBranch, hp], by rw [newQuizOps, hp]⟩

/-- Witness for C9 at a concrete body with text and no title. -/
theorem validation_no_partial_state_witness :
    parseNewQuiz { article_text := some "Er is vandaag nieuws." }
      = .error "A title is required if you provide content text." ∧
    newQuizBranch "u1" 1700000000000 { article_text := some "Er is vandaag nieuws." }
      = .error "A title is required if you provide content text." ∧
    newQuizOps "u1" 1700000000000 { article_text := some "Er is vandaag nieuws." } = [] :=
  validation_no_partial_state "u1" 1700000000000
    { article_text := some "Er is vandaag nieuws." } (by decide) rfl (by decide)

end GenerateQuiz

namespace GenerateQuiz

/-- A list is a Boolean prefix of itself followed by anything. -/
theorem isPrefixOf_append_self (l t : List Char) : l.isPrefixOf (l ++ t) = true := by
  simp [List.isPrefixOf_iff_prefix]

/-- C10: every job id minted by the new_quiz branch is the owner's user id
followed by a hyphen and the timestamp, so it starts with the owner's id,
and the poll controller's prefix-based ownership check can therefore never
answer forbidden to the creator polling their own job: whatever snapshot,
resume value and database outcome, a successful per-thread result for the
minted id has a status other than forbidden. -/
theorem created_id_never_forbidden (uid : String) (now : Nat) :
    jsStartsWith (newThreadId uid now) uid = true ∧
    ∀ (snap : Snapshot) (r : ResumeValue)
      (dbq : Except String (Option (List QuizQuestion) × String))
      (st : String) (ops : List StoreOp),
      perThread uid (newThreadId uid now) snap r dbq = .ok (st, ops) →
      st ≠ "forbidden" := by
  have hpre : jsStartsWith (newThreadId uid now) uid = true := by
    rw [jsStartsWith, newThreadId, String.data_append, String.data_append,
      List.append_assoc]
    exact isPrefixOf_append_self _ _
  refine ⟨hpre, ?_⟩
  intro snap r dbq st ops h
  cases snap with
  | finished v =>
    simp [perThread, hpre] at h
    rw [← h.1]
    decide
  | interrupted v =>
    rw [perThread, if_neg (by simp [hpre])] at h
    rcases hres : resumeThread v r dbq with e | out
    · rw [hres] at h; cases h
    · rw [hres] at h
      simp only [Except.ok.injEq, Prod.mk.injEq] at h
      obtain ⟨h1, _⟩ := h
      cases out with
      | finished s2 =>
        subst h1
        by_cases he : truthyStr s2.error = true <;> simp [he]
      | suspended s2 =>
        subst h1
        by_cases he : truthyStr s2.error = true <;> simp [he]
  | unknownState =>
    simp [perThread, hpre] at h
    rw [← h.1]
    decide

/-- Witness for C10: the creator of a job polls it without being refused. -/
theorem created_id_never_forbidden_witness :
    jsStartsWith (newThreadId "u1" 1700000000000) "u1" = true ∧
    ("completed" : String) ≠ "forbidden" :=
  ⟨(created_id_never_forbidden "u1" 1700000000000).1,
   (created_id_never_forbidden "u1" 1700000000000).2
     (.finished processingState) .poll (.ok (none, "generating")) "completed"
     [.getState (newThreadId "u1" 1700000000000)] (by decide)⟩

end GenerateQuiz
